import Mathlib

/- Verification of the BLE telemetry ingestion pipeline of the
particle-electrostatics experiment repository.

The development shallowly embeds the pipeline-relevant code:

  * the fixed-width little-endian packet codec used between
    src/BLE/server/main.py (struct.pack_into with layout <10H) and
    src/BLE/client/ble_plotter.py (PACK = struct.Struct with the same
    layout, PACK.unpack in notification_handler);
  * the voltage conversion convert_to_voltage shared verbatim by
    src/gui/motor_controls_gui.py and src/server/server.py;
  * the drop-oldest bounded queue helper _q_put_drop_oldest of
    src/gui/motor_controls_gui.py together with the semantics of
    Python's queue.Queue (put_nowait raises Full iff 0 < maxsize and
    qsize >= maxsize; get_nowait raises Empty iff the queue is empty);
  * the derivative/flag computation and CSV logging performed per valid
    sample line by serial_listener_thread of src/gui/motor_controls_gui.py;
  * the notification_handler of src/BLE/client/ble_plotter.py (queue
    fan-out, conditional CSV row, struct.error handling);
  * the discovery/connect/stream/retry loop ble_receiver_task of
    src/BLE/client/ble_plotter.py, modelled as a trace-producing step
    function over an environment script, with the process-wide stop
    event modelled as a boolean schedule read once per check point.

Python floats are modelled as exact rationals; every numeric claim
settled here is structural (exact zeroes, sign of a strict comparison,
unchanged fields), not a rounding property. -/

namespace Codec

/-- Little-endian encoding of a list of unsigned 16-bit values, two bytes
per value, low byte first: the layout `<10H` of `struct.pack_into` in
`src/BLE/server/main.py` (and of `PACK_FORMAT = "<10H"` in the client). -/
def bytesOfU16s : List Nat → List Nat
  | [] => []
  | v :: vs => v % 256 :: (v / 256) % 256 :: bytesOfU16s vs

/-- Little-endian decoding of consecutive byte pairs into unsigned 16-bit
values, the inverse direction of the `<10H` layout. -/
def u16sOfBytes : List Nat → List Nat
  | lo :: hi :: rest => (lo + 256 * hi) :: u16sOfBytes rest
  | _ => []

/-- Size in bytes of one packet under the `<10H` layout: ten u16 fields. -/
def PACK_size : Nat := 20

/-- The function `PACK.unpack` of `src/BLE/client/ble_plotter.py`: `struct.unpack`
raises `struct.error` (here `none`) iff the buffer length differs from
the static size of the layout; on an exact-length buffer it decodes the
ten little-endian u16 fields. -/
def PACK_unpack (data : List Nat) : Option (List Nat) :=
  if data.length = PACK_size then some (u16sOfBytes data) else none

/-- The call `struct.pack_into("<10H", buf, 0, *vals)` of `src/BLE/server/main.py`,
viewed as the byte string it writes. -/
def PACK_pack (vals : List Nat) : List Nat := bytesOfU16s vals

end Codec

/-- The function `convert_to_voltage` as written identically in
`src/gui/motor_controls_gui.py` (lines 75-91) and `src/server/server.py`
(lines 44-60): `ratio = raw / (1 << 14)` followed by a seven-way
conditional on the input range, falling through to `return 0` for any
range outside 1..7. Rationals stand in for Python floats. -/
def convert_to_voltage (raw : ℤ) (inputRange : ℤ) (vREF : ℚ) : ℚ :=
  let ratio : ℚ := (raw : ℚ) / (16384 : ℚ)
  if inputRange = 1 then ratio * 3 * vREF / 2 - 1.5 * vREF / 2
  else if inputRange = 2 then ratio * 3 * vREF / 2 - 3 * vREF / 2
  else if inputRange = 3 then ratio * 3 * vREF / 2
  else if inputRange = 4 then ratio * 3 * vREF - 1.5 * vREF
  else if inputRange = 5 then ratio * 3 * vREF - 3 * vREF
  else if inputRange = 6 then ratio * 3 * vREF
  else if inputRange = 7 then ratio * 6 * vREF - 3 * vREF
  else 0

namespace MotorGui

/-- A `queue.Queue` instance: its current contents in FIFO order (head =
oldest) and its `maxsize` (0 means unbounded, as in Python). -/
structure ChannelQueue (α : Type) where
  items : List α
  maxsize : Nat
deriving DecidableEq, Repr

/-- The helper `_q_put_drop_oldest` of `src/gui/motor_controls_gui.py` (lines 39-51):
try `put_nowait` (raises Full iff `0 < maxsize ∧ maxsize ≤ len`); on Full,
try `get_nowait` (a no-op `pass` on Empty, and `List.tail [] = []` models
that), then try `put_nowait` again under the same Full guard. -/
def q_put_drop_oldest {α : Type} (q : ChannelQueue α) (item : α) :
    ChannelQueue α :=
  if 0 < q.maxsize ∧ q.maxsize ≤ q.items.length then
    if 0 < q.maxsize ∧ q.maxsize ≤ q.items.tail.length then
      { q with items := q.items.tail }
    else { q with items := q.items.tail ++ [item] }
  else
    { q with items := q.items ++ [item] }

/-- Pushing a list of items one by one through `_q_put_drop_oldest`. -/
def pushAll {α : Type} (q : ChannelQueue α) (xs : List α) : ChannelQueue α :=
  xs.foldl q_put_drop_oldest q

/-- The `v_state` dictionary of `src/gui/motor_controls_gui.py`
(lines 61-65): per-channel previous-value cache and the `record` flag. -/
structure VState where
  ch2_prev : ℚ
  ch3_prev : ℚ
  record : Bool
deriving DecidableEq, Repr

/-- The `derivatives` dictionary of `src/gui/motor_controls_gui.py`
(lines 66-72): per-channel derivative, threshold, and flags. -/
structure Derivatives where
  ch2 : ℚ
  ch3 : ℚ
  threshold : ℚ
  ch2_flag : Bool
  ch3_flag : Bool
deriving DecidableEq, Repr

/-- Initial `v_state`: `{'ch2_prev': 0, 'ch3_prev': 0, 'record': False}`. -/
def v_state_init : VState := { ch2_prev := 0, ch3_prev := 0, record := false }

/-- Initial `derivatives`:
`{'ch2': 0, 'ch3': 0, 'threshold': 1, 'ch2_flag': False, 'ch3_flag': False}`. -/
def derivatives_init : Derivatives :=
  { ch2 := 0, ch3 := 0, threshold := 1, ch2_flag := false, ch3_flag := false }

/-- The derivative block of `serial_listener_thread`
(`src/gui/motor_controls_gui.py`, lines 179-190).  When `record` is set,
the loop over `(("ch2", ch2_v), ("ch3", ch3_v))` computes
`dv = (current_v - v_state[prev_key]) / 0.01`, stores the derivative and
the strict-threshold flag, and writes `v_state[prev_key] = current_v`,
ch2 first, then ch3.  When `record` is clear (first sample), it only sets
`record = True`. -/
def detector_step (vs : VState) (ds : Derivatives) (ch2_v ch3_v : ℚ) :
    VState × Derivatives :=
  if vs.record then
    let dv2 : ℚ := (ch2_v - vs.ch2_prev) / (0.01 : ℚ)
    let ds1 : Derivatives :=
      { ds with ch2 := dv2, ch2_flag := decide (ds.threshold < dv2) }
    let vs1 : VState := { vs with ch2_prev := ch2_v }
    let dv3 : ℚ := (ch3_v - vs1.ch3_prev) / (0.01 : ℚ)
    let ds2 : Derivatives :=
      { ds1 with ch3 := dv3, ch3_flag := decide (ds1.threshold < dv3) }
    let vs2 : VState := { vs1 with ch3_prev := ch3_v }
    (vs2, ds2)
  else
    ({ vs with record := true }, ds)

/-- The `latest` snapshot dictionary (line 31). -/
structure Latest where
  seq : ℤ
  ms : ℤ
  ch0 : ℚ
  ch2 : ℚ
  ch3 : ℚ
deriving DecidableEq, Repr

/-- Initial `latest` snapshot. -/
def latest_init : Latest := { seq := 0, ms := 0, ch0 := 0, ch2 := 0, ch3 := 0 }

/-- One parsed 5-field CSV sample line: `seq, ms, ch0_raw, ch2_raw,
ch3_raw = map(int, parts)` (line 170). -/
structure Frame where
  seq : ℤ
  ms : ℤ
  ch0_raw : ℤ
  ch2_raw : ℤ
  ch3_raw : ℤ
deriving DecidableEq, Repr

/-- The externally owned state read during one listener iteration:
`motor_state` (running flag, angle, rpm), `ellipse_state`, `frame_state`,
and the wall-clock value `time.time()` returned for this row. -/
structure Ext where
  running : Bool
  motorAngle : ℚ
  rpm : ℚ
  ellipseAngle : Option ℚ
  ellipseArea : Option ℚ
  frameName : String
  ts : ℚ
deriving DecidableEq, Repr

/-- One row written by `csv_writer.writerow` in `serial_listener_thread`
(lines 208-215).  String formatting of the floats (`:.6f`, `round(_, 2)`)
is kept as the exact rational being formatted; no claim depends on the
decimal rendering. -/
structure Row where
  index : Nat
  ts : ℚ
  seq : ℤ
  ms : ℤ
  motorAngle : ℚ
  rpm : ℚ
  ch0_v : ℚ
  ch2_v : ℚ
  ch3_v : ℚ
  ellipseAngle : Option ℚ
  ellipseArea : Option ℚ
  frameName : String
  dv2 : ℚ
  dv3 : ℚ
  ch2_flag : Bool
  ch3_flag : Bool
deriving DecidableEq, Repr

/-- The mutable state owned by the serial listener: detector state, the
CSV session (`csv_index`, the rows appended so far, whether `init_csv`
has run so `csv_writer` is not None), the `latest` snapshot, and the two
bounded plot queues. -/
structure ListenerState where
  vstate : VState
  derivs : Derivatives
  csvActive : Bool
  csvIndex : Nat
  log : List Row
  latest : Latest
  qa0 : ChannelQueue ℚ
  qa1 : ChannelQueue ℚ
deriving DecidableEq, Repr

/-- Listener state right after `init_csv`: fresh detector state, a new
log file with `csv_index = 0`, empty queues of capacity 2000
(`Queue(maxsize=2000)`, lines 27-28). -/
def listener_init : ListenerState :=
  { vstate := v_state_init
    derivs := derivatives_init
    csvActive := true
    csvIndex := 0
    log := []
    latest := latest_init
    qa0 := { items := [], maxsize := 2000 }
    qa1 := { items := [], maxsize := 2000 } }

/-- Processing of one valid 5-field sample line by
`serial_listener_thread` (lines 168-219): convert the three raw values
with `inputRange=1`, run the derivative block, update `latest`, push
CH2/CH3 volts into the plot queues via `_q_put_drop_oldest`, and, if the
motor is running and a CSV session is open, append one row carrying the
current `csv_index` and increment it.  (When the motor is running with no
open session the real code raises on `csv_writer.writerow`, caught by the
generic handler: no row and no index change, which the `else` branch
models.) -/
def processSample (st : ListenerState) (ext : Ext) (f : Frame) :
    ListenerState :=
  let ch0_v := convert_to_voltage f.ch0_raw 1 (4.096 : ℚ)
  let ch2_v := convert_to_voltage f.ch2_raw 1 (4.096 : ℚ)
  let ch3_v := convert_to_voltage f.ch3_raw 1 (4.096 : ℚ)
  let vd := detector_step st.vstate st.derivs ch2_v ch3_v
  let latest1 : Latest :=
    { seq := f.seq, ms := f.ms, ch0 := ch0_v, ch2 := ch2_v, ch3 := ch3_v }
  let qa0_1 := q_put_drop_oldest st.qa0 ch2_v
  let qa1_1 := q_put_drop_oldest st.qa1 ch3_v
  let st1 : ListenerState :=
    { st with vstate := vd.1, derivs := vd.2, latest := latest1,
              qa0 := qa0_1, qa1 := qa1_1 }
  if ext.running ∧ st.csvActive then
    { st1 with
        log := st1.log ++
          [{ index := st1.csvIndex, ts := ext.ts, seq := f.seq, ms := f.ms,
             motorAngle := ext.motorAngle, rpm := ext.rpm,
             ch0_v := ch0_v, ch2_v := ch2_v, ch3_v := ch3_v,
             ellipseAngle := ext.ellipseAngle,
             ellipseArea := ext.ellipseArea,
             frameName := ext.frameName,
             dv2 := vd.2.ch2, dv3 := vd.2.ch3,
             ch2_flag := vd.2.ch2_flag, ch3_flag := vd.2.ch3_flag }]
        csvIndex := st1.csvIndex + 1 }
  else
    st1

/-- Processing of a sequence of valid sample lines, each with the
external state observed at its arrival. -/
def processAll (st : ListenerState) : List (Ext × Frame) → ListenerState
  | [] => st
  | p :: rest => processAll (processSample st p.1 p.2) rest

end MotorGui

namespace BlePlotter

/-- A queue push recorded in order: which queue received which value.
The two shared queues of `src/BLE/client/ble_plotter.py` (lines 16-17)
are unbounded (`Queue()`), so a push always succeeds. -/
inductive PushEv
  | a0 (val : Nat)
  | a1 (val : Nat)
deriving DecidableEq, Repr

/-- One CSV row written by `notification_handler`
(`src/BLE/client/ble_plotter.py`, lines 92-98): reception time, the two
five-sample bursts, the blob-tracking snapshot, and the placeholder
angles `a0_angle = 1`, `a0_angle + 180`. -/
structure BleRow where
  now : ℚ
  a0_vals : List Nat
  a1_vals : List Nat
  blobAngle : ℚ
  blobArea : ℚ
  a0_angle : ℚ
  a1_angle : ℚ
deriving DecidableEq, Repr

/-- The mutable state touched by `notification_handler`: the two receive
queues (kept whole, since nothing pops them inside the handler), the
ordered push trace, the global `running_time`, the CSV rows appended so
far, whether the handler crashed on the unbound `a0_angle` (the
`NameError` path when `elapsed <= 0`, which `except struct.error` does
not catch), and the console lines printed. -/
structure BleState where
  a0 : List Nat
  a1 : List Nat
  pushTrace : List PushEv
  running_time : ℚ
  log : List BleRow
  crashed : Bool
  console : List String
deriving DecidableEq, Repr

/-- Initial client state: empty queues, `running_time = 0`, no rows. -/
def ble_init : BleState :=
  { a0 := [], a1 := [], pushTrace := [], running_time := 0, log := [],
    crashed := false, console := [] }

/-- Externally owned values read during one handler invocation:
`motor_state['running']`, `location_state['flag']`, whether a CSV session
is open (`csv_writer` not None), `blob_state`, and the wall-clock reads
`time.time()` at entry (line 71), at the `running_time` seed (line 84),
and at the `elapsed` computation (line 86). -/
structure BleExt where
  running : Bool
  locationFlag : Bool
  csvActive : Bool
  blobAngle : ℚ
  blobArea : ℚ
  now : ℚ
  tSeed : ℚ
  tElapsed : ℚ
deriving DecidableEq, Repr

/-- The callback `notification_handler` of `src/BLE/client/ble_plotter.py`
(lines 70-100): unpack with `PACK.unpack` (a length other than 20 raises
`struct.error`, caught at line 99 with a one-line diagnostic naming the
length); on success push the first five values into `data_queue_a0` and
the last five into `data_queue_a1`, in wire order; then, when the motor
is running and the location flag is set, seed `running_time` if zero and,
when a CSV session is open, append one row — unless `elapsed <= 0`, in
which case `a0_angle` is unbound and the row write raises `NameError`
(modelled by the `crashed` flag; the queues have already been pushed). -/
def notification_handler (st : BleState) (ext : BleExt) (data : List Nat) :
    BleState :=
  match Codec.PACK_unpack data with
  | none =>
    { st with console := st.console ++
        ["[BLE] Bad packet length: " ++ toString data.length] }
  | some vals =>
    let a0_vals := vals.take 5
    let a1_vals := vals.drop 5
    let st1 : BleState :=
      { st with
          a0 := st.a0 ++ a0_vals
          a1 := st.a1 ++ a1_vals
          pushTrace := st.pushTrace ++
            a0_vals.map PushEv.a0 ++ a1_vals.map PushEv.a1 }
    if ext.running ∧ ext.locationFlag then
      let rt := if st1.running_time = 0 then ext.tSeed else st1.running_time
      let st2 : BleState := { st1 with running_time := rt }
      if ext.csvActive then
        let elapsed := ext.tElapsed - rt
        if 0 < elapsed then
          { st2 with log := st2.log ++
              [{ now := ext.now, a0_vals := a0_vals, a1_vals := a1_vals,
                 blobAngle := ext.blobAngle, blobArea := ext.blobArea,
                 a0_angle := 1, a1_angle := 1 + 180 }] }
        else
          { st2 with crashed := true }
      else st2
    else st1

/-- Processing of a sequence of notifications, each with the external
state observed at its arrival. -/
def runHandler (st : BleState) : List (BleExt × List Nat) → BleState
  | [] => st
  | p :: rest => runHandler (notification_handler st p.1 p.2) rest

end BlePlotter

namespace Supervisor

/-- Outcome of one iteration of the `while not stop_event.is_set()` loop
of `ble_receiver_task` (`src/BLE/client/ble_plotter.py`, lines 57-113),
as driven by the environment: discovery found nothing; the connect or
stream raised `BleakError`; it raised some other exception; or the
connection succeeded and the link stayed up for `polls` iterations of
the 0.1 s connectivity poll before dropping. -/
inductive BLEOutcome
  | notFound
  | bleakErr
  | unexpected
  | stream (polls : Nat)
deriving DecidableEq, Repr

/-- Observable actions of the supervisor: a discovery attempt
(`find_device`), a connection attempt (`BleakClient(...)`), a backoff
sleep of the given duration in tenths of a second (50 = the 5 s
discovery backoff, 20 = the 2 s connection backoff), one 0.1 s streaming
poll sleep, and the closing of the CSV file on exit (lines 115-117). -/
inductive Ev
  | discover
  | connectAttempt
  | sleepTenths (tenths : Nat)
  | poll
  | closeCsv
deriving DecidableEq, Repr

/-- The inner streaming loop `while client.is_connected and not
stop_event.is_set(): await asyncio.sleep(0.1)` (lines 104-105).  `polls`
is how many iterations the link stays up; `t` counts stop-event reads.
Returns the timed poll events and the read counter at loop exit.  When
the link is down `is_connected` short-circuits and the stop event is not
read. -/
def runStream (stop : Nat → Bool) : Nat → Nat → List (Nat × Ev) × Nat
  | 0, t => ([], t)
  | polls + 1, t =>
    if stop t then ([], t + 1)
    else
      let r := runStream stop polls (t + 1)
      ((t, Ev.poll) :: r.1, r.2)

/-- The loop `ble_receiver_task` (lines 57-118) as a timed trace.  `stop t` is the
value returned by the `t`-th read of `stop_event.is_set()`.  Each loop
iteration: read the stop event (exit and close the CSV when set); run
discovery; on no device, read the stop event again and, when clear,
sleep 5 s, then `continue`; on a device, attempt the connection; on
`BleakError`, read the stop event and, when clear, sleep 2 s, then loop;
on any other exception, `break` straight to the CSV close; on success,
run the poll loop until disconnect or stop, then loop.  An exhausted
script means the run is still in flight (the real loop exits only via
the stop event or an unexpected error), so nothing more is emitted. -/
def runSup (stop : Nat → Bool) :
    List BLEOutcome → Nat → Bool → List (Nat × Ev)
  | script, t, csvOpen =>
    if stop t then (if csvOpen then [(t, Ev.closeCsv)] else [])
    else
      match script with
      | [] => []
      | BLEOutcome.notFound :: rest =>
        (t, Ev.discover) ::
          (if stop (t + 1) then runSup stop rest (t + 2) csvOpen
           else (t + 1, Ev.sleepTenths 50) :: runSup stop rest (t + 2) csvOpen)
      | BLEOutcome.bleakErr :: rest =>
        (t, Ev.discover) :: (t, Ev.connectAttempt) ::
          (if stop (t + 1) then runSup stop rest (t + 2) csvOpen
           else (t + 1, Ev.sleepTenths 20) :: runSup stop rest (t + 2) csvOpen)
      | BLEOutcome.unexpected :: _rest =>
        (t, Ev.discover) :: (t, Ev.connectAttempt) ::
          (if csvOpen then [(t + 1, Ev.closeCsv)] else [])
      | BLEOutcome.stream polls :: rest =>
        let r := runStream stop polls (t + 1)
        (t, Ev.discover) :: (t, Ev.connectAttempt) ::
          (r.1 ++ runSup stop rest r.2 csvOpen)

/-- The stop schedule of a run in which the stop event is never set. -/
def neverStop : Nat → Bool := fun _ => false

end Supervisor

namespace Codec

theorem u16sOfBytes_bytesOfU16s (vals : List Nat)
    (hb : ∀ v ∈ vals, v < 65536) : u16sOfBytes (bytesOfU16s vals) = vals := by
  induction vals with
  | nil => rfl
  | cons v vs ih =>
    have hv : v < 65536 := hb v (List.mem_cons_self v vs)
    have hdiv : v / 256 < 256 := Nat.div_lt_of_lt_mul hv
    have hmod : (v / 256) % 256 = v / 256 := Nat.mod_eq_of_lt hdiv
    simp only [bytesOfU16s, u16sOfBytes, hmod]
    rw [Nat.mod_add_div, ih fun x hx => hb x (List.mem_cons_of_mem v hx)]

theorem bytesOfU16s_length (vals : List Nat) :
    (bytesOfU16s vals).length = 2 * vals.length := by
  induction vals with
  | nil => rfl
  | cons v vs ih => simp [bytesOfU16s, ih]; omega

end Codec

/-- C5: voltage conversion is a pure total function; at
`raw = 8192, inputRange = 4, vREF = 4.096` it equals the documented
formula `ratio * 3 * vref - 1.5 * vref` with `ratio = 1/2`, which is
exactly `0`; and for every input range outside 1..7 the result is
exactly `0` (the documented fallback).  Purity and determinism hold by
construction: `convert_to_voltage` is a mathematical function of its
three arguments. -/
theorem C5_voltage_conversion :
    (convert_to_voltage 8192 4 (4.096 : ℚ)
        = ((8192 : ℚ) / 16384) * 3 * (4.096 : ℚ) - 1.5 * (4.096 : ℚ)
      ∧ convert_to_voltage 8192 4 (4.096 : ℚ) = 0)
    ∧ ∀ (raw : ℤ) (inputRange : ℤ) (vREF : ℚ),
        (inputRange < 1 ∨ 7 < inputRange) →
        convert_to_voltage raw inputRange vREF = 0 := by
  refine ⟨⟨by norm_num [convert_to_voltage], by norm_num [convert_to_voltage]⟩, ?_⟩
  intro raw ir v h
  have h1 : ir ≠ 1 := by omega
  have h2 : ir ≠ 2 := by omega
  have h3 : ir ≠ 3 := by omega
  have h4 : ir ≠ 4 := by omega
  have h5 : ir ≠ 5 := by omega
  have h6 : ir ≠ 6 := by omega
  have h7 : ir ≠ 7 := by omega
  simp [convert_to_voltage, h1, h2, h3, h4, h5, h6, h7]

/-- Witness for C5 at the concrete out-of-range input `inputRange = 0`. -/
theorem C5_voltage_conversion_witness :
    ((0 : ℤ) < 1 ∨ (7 : ℤ) < 0) ∧
      convert_to_voltage 12345 0 (4.096 : ℚ) = 0 :=
  ⟨Or.inl (by norm_num),
   C5_voltage_conversion.2 12345 0 (4.096 : ℚ) (Or.inl (by norm_num))⟩

/-- C9: round-trip of the `<10H` codec — packing any ten unsigned 16-bit
values with the server's layout and unpacking the resulting (necessarily
20-byte) buffer with the client's `PACK.unpack` returns the original
tuple. -/
theorem C9_roundtrip_decode (vals : List Nat) (h10 : vals.length = 10)
    (hb : ∀ v ∈ vals, v < 65536) :
    Codec.PACK_unpack (Codec.PACK_pack vals) = some vals := by
  unfold Codec.PACK_unpack Codec.PACK_pack
  rw [if_pos]
  · rw [Codec.u16sOfBytes_bytesOfU16s vals hb]
  · rw [Codec.bytesOfU16s_length, h10]; rfl

/-- Witness for C9 at a concrete tuple of ten u16 values. -/
theorem C9_roundtrip_decode_witness :
    (([0, 1, 256, 257, 4095, 513, 65535, 7, 40000, 2048] : List Nat).length = 10
      ∧ ∀ v ∈ ([0, 1, 256, 257, 4095, 513, 65535, 7, 40000, 2048] : List Nat),
          v < 65536)
    ∧ Codec.PACK_unpack
        (Codec.PACK_pack [0, 1, 256, 257, 4095, 513, 65535, 7, 40000, 2048])
        = some [0, 1, 256, 257, 4095, 513, 65535, 7, 40000, 2048] :=
  ⟨⟨by decide, by decide⟩,
   C9_roundtrip_decode _ (by decide) (by decide)⟩

/-- C3 counterexample: the first `update` after initialization does not
seed the previous-value cache with the sample's value.  At the concrete
first sample `(ch2_v, ch3_v) = (5, 7)` the cache still holds `(0, 0)`
afterwards, refuting the seeding conjunct of the claim. -/
theorem C3_counterexample :
    ¬ ((MotorGui.detector_step MotorGui.v_state_init MotorGui.derivatives_init
          5 7).1.ch2_prev = 5
        ∧ (MotorGui.detector_step MotorGui.v_state_init MotorGui.derivatives_init
          5 7).1.ch3_prev = 7) := by
  decide

/-- C3 amended: the first `update` call after detector initialization
returns derivative 0 and flag false for every channel regardless of the
sample's raw values, but it does not seed the previous-value cache with
the sample's value — the cache keeps its initial value 0 and only the
`record` flag is set; the cache is first written during the second
sample's update. -/
theorem C3_first_sample_amended (a b : ℚ) :
    MotorGui.detector_step MotorGui.v_state_init MotorGui.derivatives_init a b
      = ({ ch2_prev := 0, ch3_prev := 0, record := true },
         MotorGui.derivatives_init)
    ∧ MotorGui.derivatives_init.ch2 = 0
    ∧ MotorGui.derivatives_init.ch3 = 0
    ∧ MotorGui.derivatives_init.ch2_flag = false
    ∧ MotorGui.derivatives_init.ch3_flag = false :=
  ⟨rfl, rfl, rfl, rfl, rfl⟩

/-- C7: for every non-first sample (the `record` flag is set), each
channel's derivative is `(current - previous) / 0.01` with the fixed
nominal `dt = 0.01 s` (the literal constant in the source, never a
measured wall-clock delta), the flag is the strict comparison
`derivative > threshold`, the threshold is left unchanged (its initial
default being 1), and the previous-value cache is overwritten with the
current value unconditionally — each channel written exactly once per
call. -/
theorem C7_derivative_step (vs : MotorGui.VState) (ds : MotorGui.Derivatives)
    (a b : ℚ) (h : vs.record = true) :
    (MotorGui.detector_step vs ds a b).2.ch2 = (a - vs.ch2_prev) / (0.01 : ℚ)
    ∧ (MotorGui.detector_step vs ds a b).2.ch3 = (b - vs.ch3_prev) / (0.01 : ℚ)
    ∧ (MotorGui.detector_step vs ds a b).2.ch2_flag
        = decide (ds.threshold < (a - vs.ch2_prev) / (0.01 : ℚ))
    ∧ (MotorGui.detector_step vs ds a b).2.ch3_flag
        = decide (ds.threshold < (b - vs.ch3_prev) / (0.01 : ℚ))
    ∧ (MotorGui.detector_step vs ds a b).2.threshold = ds.threshold
    ∧ (MotorGui.detector_step vs ds a b).1.ch2_prev = a
    ∧ (MotorGui.detector_step vs ds a b).1.ch3_prev = b
    ∧ (MotorGui.detector_step vs ds a b).1.record = true
    ∧ MotorGui.derivatives_init.threshold = 1 := by
  simp [MotorGui.detector_step, h, MotorGui.derivatives_init]

/-- Witness for C7 at a concrete recording state and sample. -/
theorem C7_derivative_step_witness :
    ({ ch2_prev := 1, ch3_prev := 2, record := true } : MotorGui.VState).record
      = true
    ∧ ((MotorGui.detector_step
          { ch2_prev := 1, ch3_prev := 2, record := true }
          MotorGui.derivatives_init 3 4).2.ch2 = ((3 : ℚ) - 1) / (0.01 : ℚ)
      ∧ (MotorGui.detector_step
          { ch2_prev := 1, ch3_prev := 2, record := true }
          MotorGui.derivatives_init 3 4).2.ch3 = ((4 : ℚ) - 2) / (0.01 : ℚ)
      ∧ (MotorGui.detector_step
          { ch2_prev := 1, ch3_prev := 2, record := true }
          MotorGui.derivatives_init 3 4).2.ch2_flag
          = decide (MotorGui.derivatives_init.threshold
              < ((3 : ℚ) - 1) / (0.01 : ℚ))
      ∧ (MotorGui.detector_step
          { ch2_prev := 1, ch3_prev := 2, record := true }
          MotorGui.derivatives_init 3 4).2.ch3_flag
          = decide (MotorGui.derivatives_init.threshold
              < ((4 : ℚ) - 2) / (0.01 : ℚ))
      ∧ (MotorGui.detector_step
          { ch2_prev := 1, ch3_prev := 2, record := true }
          MotorGui.derivatives_init 3 4).2.threshold
          = MotorGui.derivatives_init.threshold
      ∧ (MotorGui.detector_step
          { ch2_prev := 1, ch3_prev := 2, record := true }
          MotorGui.derivatives_init 3 4).1.ch2_prev = 3
      ∧ (MotorGui.detector_step
          { ch2_prev := 1, ch3_prev := 2, record := true }
          MotorGui.derivatives_init 3 4).1.ch3_prev = 4
      ∧ (MotorGui.detector_step
          { ch2_prev := 1, ch3_prev := 2, record := true }
          MotorGui.derivatives_init 3 4).1.record = true
      ∧ MotorGui.derivatives_init.threshold = 1) :=
  ⟨rfl, C7_derivative_step
    { ch2_prev := 1, ch3_prev := 2, record := true }
    MotorGui.derivatives_init 3 4 rfl⟩

namespace MotorGui

theorem q_put_eq_append {α : Type} (q : ChannelQueue α) (x : α)
    (h : q.items.length < q.maxsize ∨ q.maxsize = 0) :
    q_put_drop_oldest q x = { q with items := q.items ++ [x] } := by
  unfold q_put_drop_oldest
  rw [if_neg (by omega)]

theorem q_put_eq_evict {α : Type} (q : ChannelQueue α) (x : α)
    (h0 : 0 < q.maxsize) (h : q.items.length = q.maxsize) :
    q_put_drop_oldest q x = { q with items := q.items.tail ++ [x] } := by
  have ht : q.items.tail.length = q.maxsize - 1 := by
    rw [List.length_tail, h]
  unfold q_put_drop_oldest
  rw [if_pos ⟨h0, le_of_eq h.symm⟩, if_neg (by omega)]

theorem pushAll_cons {α : Type} (q : ChannelQueue α) (x : α) (xs : List α) :
    pushAll q (x :: xs) = pushAll (q_put_drop_oldest q x) xs := rfl

/-- Sliding-window characterization of `_q_put_drop_oldest`: pushing a
batch of items through a well-formed bounded queue leaves exactly the
most recent `N` of all items ever present, in FIFO order. -/
theorem pushAll_window {α : Type} (N : Nat) (hN : 0 < N) :
    ∀ (xs : List α) (q : ChannelQueue α), q.maxsize = N →
      q.items.length ≤ N → N ≤ q.items.length + xs.length →
      (pushAll q xs).items
        = (q.items ++ xs).drop (q.items.length + xs.length - N) := by
  intro xs
  induction xs with
  | nil =>
    intro q hm hle hge
    have hlen : q.items.length = N := by simp at hge; omega
    simp [pushAll, hlen]
  | cons x xs ih =>
    intro q hm hle hge
    rw [pushAll_cons]
    by_cases hfull : q.items.length = N
    · have hne : q.items ≠ [] := by
        intro he
        rw [he] at hfull
        simp at hfull
        omega
      have hstep := q_put_eq_evict q x (by omega) (hfull.trans hm.symm)
      rw [hstep]
      have htl : q.items.tail.length = N - 1 := by
        rw [List.length_tail, hfull]
      have hres := ih { q with items := q.items.tail ++ [x] }
        (by simpa using hm)
        (by simp [htl]; omega)
        (by simp [htl]; omega)
      simp only [hres]
      simp only [List.length_append, htl, List.length_singleton]
      have harith1 : N - 1 + 1 + xs.length - N = xs.length := by omega
      have harith2 : q.items.length + (x :: xs).length - N = xs.length + 1 := by
        rw [hfull, List.length_cons]; omega
      rw [harith1, harith2, List.append_assoc, List.singleton_append]
      conv_rhs => rw [← List.head_cons_tail q.items hne]
      rw [List.cons_append, List.drop_succ_cons]
    · have hstep := q_put_eq_append q x (by omega)
      rw [hstep]
      have hres := ih { q with items := q.items ++ [x] }
        (by simpa using hm)
        (by simp; omega)
        (by simp [List.length_cons] at hge ⊢; omega)
      simp only [hres]
      simp only [List.length_append, List.length_singleton]
      have harith : q.items.length + 1 + xs.length - N
          = q.items.length + (x :: xs).length - N := by
        simp; omega
      rw [harith, List.append_assoc, List.singleton_append]

theorem q_put_maxsize {α : Type} (q : ChannelQueue α) (x : α) :
    (q_put_drop_oldest q x).maxsize = q.maxsize := by
  unfold q_put_drop_oldest
  split
  · split <;> rfl
  · rfl

theorem pushAll_maxsize {α : Type} :
    ∀ (xs : List α) (q : ChannelQueue α), (pushAll q xs).maxsize = q.maxsize
  | [], _ => rfl
  | x :: xs, q => by
    rw [pushAll_cons, pushAll_maxsize xs, q_put_maxsize]

end MotorGui

/-- C4: the drop-oldest channel queue.  `push` is a total function
(never blocks, never raises, by construction of the embedding of the
`try/except` ladder of `_q_put_drop_oldest`); pushing any `N + 1` items
into a well-formed queue of capacity `N` leaves exactly the last `N`
items pushed, in FIFO order, at full capacity; and a single push into a
well-formed queue always ends with the new item at the queue's tail —
the new item is never silently dropped, only the single oldest one is
evicted. -/
theorem C4_drop_oldest_queue (N : Nat) (q : MotorGui.ChannelQueue ℚ)
    (xs : List ℚ) (hN : 0 < N) (hm : q.maxsize = N)
    (hle : q.items.length ≤ N) (hlen : xs.length = N + 1) :
    (MotorGui.pushAll q xs).items = xs.tail
    ∧ (MotorGui.pushAll q xs).items.length = N
    ∧ (MotorGui.pushAll q xs).maxsize = N
    ∧ ∀ (q' : MotorGui.ChannelQueue ℚ) (y : ℚ),
        (q'.items.length ≤ q'.maxsize ∨ q'.maxsize = 0) →
        (MotorGui.q_put_drop_oldest q' y).items.getLast? = some y := by
  have hw := MotorGui.pushAll_window N hN xs q hm hle (by omega)
  have harith : q.items.length + xs.length - N = q.items.length + 1 := by
    omega
  rw [harith, List.drop_append 1, List.drop_one] at hw
  refine ⟨hw, ?_, (MotorGui.pushAll_maxsize xs q).trans hm, ?_⟩
  · rw [hw, List.length_tail, hlen]
    omega
  · intro q' y h
    by_cases h0 : q'.maxsize = 0
    · rw [MotorGui.q_put_eq_append q' y (Or.inr h0)]
      exact List.getLast?_concat _
    · rcases h with hle' | h0'
      · rcases lt_or_eq_of_le hle' with hlt | heq
        · rw [MotorGui.q_put_eq_append q' y (Or.inl hlt)]
          exact List.getLast?_concat _
        · rw [MotorGui.q_put_eq_evict q' y (Nat.pos_of_ne_zero h0) heq]
          exact List.getLast?_concat _
      · exact absurd h0' h0

/-- Witness for C4: an empty queue of capacity 2 receiving three pushes
keeps exactly the last two, in order. -/
theorem C4_drop_oldest_queue_witness :
    ((0 : Nat) < 2
      ∧ ({ items := [], maxsize := 2 } : MotorGui.ChannelQueue ℚ).maxsize = 2
      ∧ ({ items := [], maxsize := 2 } : MotorGui.ChannelQueue ℚ).items.length ≤ 2
      ∧ ([10, 20, 30] : List ℚ).length = 2 + 1)
    ∧ ((MotorGui.pushAll { items := [], maxsize := 2 } [10, 20, 30]).items
          = ([10, 20, 30] : List ℚ).tail
      ∧ (MotorGui.pushAll
          ({ items := [], maxsize := 2 } : MotorGui.ChannelQueue ℚ)
          [10, 20, 30]).items.length = 2
      ∧ (MotorGui.pushAll
          ({ items := [], maxsize := 2 } : MotorGui.ChannelQueue ℚ)
          [10, 20, 30]).maxsize = 2
      ∧ ∀ (q' : MotorGui.ChannelQueue ℚ) (y : ℚ),
          (q'.items.length ≤ q'.maxsize ∨ q'.maxsize = 0) →
          (MotorGui.q_put_drop_oldest q' y).items.getLast? = some y) :=
  ⟨⟨by decide, rfl, by decide, by decide⟩,
   C4_drop_oldest_queue 2 { items := [], maxsize := 2 } [10, 20, 30]
     (by decide) rfl (by decide) (by decide)⟩

namespace MotorGui

theorem processSample_log_active (st : ListenerState) (ext : Ext) (f : Frame)
    (hrun : ext.running = true) (hact : st.csvActive = true) :
    (processSample st ext f).log.map (fun r => r.index)
        = st.log.map (fun r => r.index) ++ [st.csvIndex]
    ∧ (processSample st ext f).log.map (fun r => (r.seq, r.ms))
        = st.log.map (fun r => (r.seq, r.ms)) ++ [(f.seq, f.ms)]
    ∧ (processSample st ext f).csvIndex = st.csvIndex + 1
    ∧ (processSample st ext f).csvActive = true := by
  simp [processSample, hrun, hact]

theorem processAll_log (inputs : List (Ext × Frame)) :
    ∀ (st : ListenerState), st.csvActive = true →
      (∀ p ∈ inputs, p.1.running = true) →
      (processAll st inputs).log.map (fun r => r.index)
          = st.log.map (fun r => r.index)
            ++ List.range' st.csvIndex inputs.length
      ∧ (processAll st inputs).log.map (fun r => (r.seq, r.ms))
          = st.log.map (fun r => (r.seq, r.ms))
            ++ inputs.map (fun p => (p.2.seq, p.2.ms))
      ∧ (processAll st inputs).csvIndex = st.csvIndex + inputs.length := by
  induction inputs with
  | nil =>
    intro st _ _
    simp [processAll]
  | cons p rest ih =>
    intro st hact hrun
    have hp : p.1.running = true := hrun p (List.mem_cons_self p rest)
    obtain ⟨s1, s2, s3, s4⟩ := processSample_log_active st p.1 p.2 hp hact
    have hrest : ∀ q ∈ rest, q.1.running = true :=
      fun q hq => hrun q (List.mem_cons_of_mem p hq)
    obtain ⟨h1, h2, h3⟩ := ih (processSample st p.1 p.2) s4 hrest
    have hall : processAll st (p :: rest)
        = processAll (processSample st p.1 p.2) rest := rfl
    refine ⟨?_, ?_, ?_⟩
    · rw [hall, h1, s1, s3, List.length_cons, List.range'_succ,
        List.append_assoc, List.singleton_append]
    · rw [hall, h2, s2, List.map_cons, List.append_assoc,
        List.singleton_append]
    · rw [hall, h3, s3, List.length_cons]
      omega

end MotorGui

/-- C1: no-loss logging path.  Feeding any sequence of K successfully
decoded frames through the serial listener from a fresh logging session
(`init_csv` just ran, motor running throughout) appends exactly K rows,
one per frame in strict arrival order with no duplication, and the
`row_index` values written are exactly 0..K-1, strictly increasing with
no gaps and no repeats (`List.range K`). -/
theorem C1_no_loss_logging (inputs : List (MotorGui.Ext × MotorGui.Frame))
    (hrun : ∀ p ∈ inputs, p.1.running = true) :
    (MotorGui.processAll MotorGui.listener_init inputs).log.length
        = inputs.length
    ∧ (MotorGui.processAll MotorGui.listener_init inputs).log.map
          (fun r => r.index)
        = List.range inputs.length
    ∧ (MotorGui.processAll MotorGui.listener_init inputs).log.map
          (fun r => (r.seq, r.ms))
        = inputs.map (fun p => (p.2.seq, p.2.ms)) := by
  obtain ⟨h1, h2, h3⟩ :=
    MotorGui.processAll_log inputs MotorGui.listener_init rfl hrun
  have hlog0 : MotorGui.listener_init.log = [] := rfl
  rw [hlog0] at h1 h2
  simp only [List.map_nil, List.nil_append] at h1 h2
  refine ⟨?_, ?_, h2⟩
  · have := congrArg List.length h2
    simpa using this
  · rw [h1, List.range_eq_range']
    rfl

/-- Witness for C1 at a concrete two-frame session with the motor
running. -/
theorem C1_no_loss_logging_witness :
    (∀ p ∈ ([({ running := true, motorAngle := 0, rpm := 3,
                 ellipseAngle := none, ellipseArea := none,
                 frameName := "f0", ts := 100 },
               { seq := 1, ms := 10, ch0_raw := 0, ch2_raw := 8192,
                 ch3_raw := 100 }),
              ({ running := true, motorAngle := 1, rpm := 3,
                 ellipseAngle := some 5, ellipseArea := some 6,
                 frameName := "f1", ts := 101 },
               { seq := 2, ms := 20, ch0_raw := 1, ch2_raw := 2,
                 ch3_raw := 3 })] :
          List (MotorGui.Ext × MotorGui.Frame)), p.1.running = true)
    ∧ ((MotorGui.processAll MotorGui.listener_init
          [({ running := true, motorAngle := 0, rpm := 3,
              ellipseAngle := none, ellipseArea := none,
              frameName := "f0", ts := 100 },
            { seq := 1, ms := 10, ch0_raw := 0, ch2_raw := 8192,
              ch3_raw := 100 }),
           ({ running := true, motorAngle := 1, rpm := 3,
              ellipseAngle := some 5, ellipseArea := some 6,
              frameName := "f1", ts := 101 },
            { seq := 2, ms := 20, ch0_raw := 1, ch2_raw := 2,
              ch3_raw := 3 })]).log.length = 2
      ∧ (MotorGui.processAll MotorGui.listener_init
          [({ running := true, motorAngle := 0, rpm := 3,
              ellipseAngle := none, ellipseArea := none,
              frameName := "f0", ts := 100 },
            { seq := 1, ms := 10, ch0_raw := 0, ch2_raw := 8192,
              ch3_raw := 100 }),
           ({ running := true, motorAngle := 1, rpm := 3,
              ellipseAngle := some 5, ellipseArea := some 6,
              frameName := "f1", ts := 101 },
            { seq := 2, ms := 20, ch0_raw := 1, ch2_raw := 2,
              ch3_raw := 3 })]).log.map (fun r => r.index) = List.range 2
      ∧ (MotorGui.processAll MotorGui.listener_init
          [({ running := true, motorAngle := 0, rpm := 3,
              ellipseAngle := none, ellipseArea := none,
              frameName := "f0", ts := 100 },
            { seq := 1, ms := 10, ch0_raw := 0, ch2_raw := 8192,
              ch3_raw := 100 }),
           ({ running := true, motorAngle := 1, rpm := 3,
              ellipseAngle := some 5, ellipseArea := some 6,
              frameName := "f1", ts := 101 },
            { seq := 2, ms := 20, ch0_raw := 1, ch2_raw := 2,
              ch3_raw := 3 })]).log.map (fun r => (r.seq, r.ms))
          = [((1 : ℤ), (10 : ℤ)), (2, 20)]) := by
  have h := C1_no_loss_logging
    [({ running := true, motorAngle := 0, rpm := 3,
        ellipseAngle := none, ellipseArea := none,
        frameName := "f0", ts := 100 },
      { seq := 1, ms := 10, ch0_raw := 0, ch2_raw := 8192,
        ch3_raw := 100 }),
     ({ running := true, motorAngle := 1, rpm := 3,
        ellipseAngle := some 5, ellipseArea := some 6,
        frameName := "f1", ts := 101 },
      { seq := 2, ms := 20, ch0_raw := 1, ch2_raw := 2,
        ch3_raw := 3 })]
    (by intro p hp; fin_cases hp <;> rfl)
  exact ⟨by intro p hp; fin_cases hp <;> rfl, h.1, h.2.1, h.2.2⟩

namespace Codec

theorem u16sOfBytes_length :
    ∀ (l : List Nat), (u16sOfBytes l).length = l.length / 2
  | [] => rfl
  | [_] => by simp [u16sOfBytes]
  | lo :: hi :: rest => by
    simp only [u16sOfBytes, List.length_cons]
    rw [u16sOfBytes_length rest]
    omega

end Codec

namespace BlePlotter

theorem notification_handler_invalid (st : BleState) (ext : BleExt)
    (data : List Nat) (h : data.length ≠ Codec.PACK_size) :
    notification_handler st ext data
      = { st with console := st.console ++
          ["[BLE] Bad packet length: " ++ toString data.length] } := by
  have hu : Codec.PACK_unpack data = none := by
    unfold Codec.PACK_unpack
    rw [if_neg h]
  simp [notification_handler, hu]

theorem notification_handler_valid (st : BleState) (ext : BleExt)
    (data : List Nat) (h : data.length = Codec.PACK_size) :
    ∃ (rt : ℚ) (lg : List BleRow) (cr : Bool),
      notification_handler st ext data
        = { a0 := st.a0 ++ (Codec.u16sOfBytes data).take 5
            a1 := st.a1 ++ (Codec.u16sOfBytes data).drop 5
            pushTrace := st.pushTrace
              ++ ((Codec.u16sOfBytes data).take 5).map PushEv.a0
              ++ ((Codec.u16sOfBytes data).drop 5).map PushEv.a1
            running_time := rt
            log := lg
            crashed := cr
            console := st.console } := by
  have hu : Codec.PACK_unpack data = some (Codec.u16sOfBytes data) := by
    unfold Codec.PACK_unpack
    rw [if_pos h]
  simp only [notification_handler, hu]
  by_cases h1 : ext.running = true ∧ ext.locationFlag = true
  · rw [if_pos h1]
    by_cases h2 : ext.csvActive = true
    · rw [if_pos h2]
      by_cases h3 : (0 : ℚ) < ext.tElapsed -
          (if st.running_time = 0 then ext.tSeed else st.running_time)
      · rw [if_pos h3]
        exact ⟨_, _, _, rfl⟩
      · rw [if_neg h3]
        exact ⟨_, _, _, rfl⟩
    · rw [if_neg h2]
      exact ⟨_, _, _, rfl⟩
  · rw [if_neg h1]
    exact ⟨_, _, _, rfl⟩

theorem runHandler_lengths (frames : List (BleExt × List Nat)) :
    ∀ (st : BleState),
      (runHandler st frames).a0.length = st.a0.length
        + 5 * (frames.filter
            fun p => decide (p.2.length = Codec.PACK_size)).length
      ∧ (runHandler st frames).a1.length = st.a1.length
        + 5 * (frames.filter
            fun p => decide (p.2.length = Codec.PACK_size)).length := by
  induction frames with
  | nil =>
    intro st
    simp [runHandler]
  | cons p rest ih =>
    intro st
    have hrun : runHandler st (p :: rest)
        = runHandler (notification_handler st p.1 p.2) rest := rfl
    by_cases h : p.2.length = Codec.PACK_size
    · obtain ⟨rt, lg, cr, he⟩ := notification_handler_valid st p.1 p.2 h
      have hu16 : (Codec.u16sOfBytes p.2).length = 10 := by
        rw [Codec.u16sOfBytes_length, h]
        rfl
      obtain ⟨i0, i1⟩ := ih (notification_handler st p.1 p.2)
      have ha0 : (notification_handler st p.1 p.2).a0.length
          = st.a0.length + 5 := by
        rw [he]
        simp [List.length_take, hu16]
      have ha1 : (notification_handler st p.1 p.2).a1.length
          = st.a1.length + 5 := by
        rw [he]
        simp [List.length_drop, hu16]
      rw [hrun]
      rw [i0, i1, ha0, ha1]
      simp [List.filter_cons, h]
      omega
    · have he := notification_handler_invalid st p.1 p.2 h
      obtain ⟨i0, i1⟩ := ih (notification_handler st p.1 p.2)
      have ha0 : (notification_handler st p.1 p.2).a0.length
          = st.a0.length := by rw [he]
      have ha1 : (notification_handler st p.1 p.2).a1.length
          = st.a1.length := by rw [he]
      rw [hrun, i0, i1, ha0, ha1]
      simp [List.filter_cons, h]

end BlePlotter

/-- C6: length rejection without partial effects.  For every byte
sequence whose length differs from the statically configured packet size
(20 bytes for the `<10H` layout), `PACK.unpack` fails (`struct.error`,
here `none`); the handler performs no queue pushes and appends no log
row, the decode never partially populates anything, exactly one
diagnostic line naming the bad length is printed, and the handler
returns normally — the exception is caught inside the callback, so the
streaming supervisor never sees it and streaming continues. -/
theorem C6_length_rejection (st : BlePlotter.BleState)
    (ext : BlePlotter.BleExt) (data : List Nat)
    (h : data.length ≠ Codec.PACK_size) :
    Codec.PACK_unpack data = none
    ∧ (BlePlotter.notification_handler st ext data).a0 = st.a0
    ∧ (BlePlotter.notification_handler st ext data).a1 = st.a1
    ∧ (BlePlotter.notification_handler st ext data).pushTrace = st.pushTrace
    ∧ (BlePlotter.notification_handler st ext data).log = st.log
    ∧ (BlePlotter.notification_handler st ext data).running_time
        = st.running_time
    ∧ (BlePlotter.notification_handler st ext data).crashed = st.crashed
    ∧ (BlePlotter.notification_handler st ext data).console
        = st.console ++ ["[BLE] Bad packet length: " ++ toString data.length] := by
  have hu : Codec.PACK_unpack data = none := by
    unfold Codec.PACK_unpack
    rw [if_neg h]
  have he := BlePlotter.notification_handler_invalid st ext data h
  exact ⟨hu, by rw [he], by rw [he], by rw [he], by rw [he], by rw [he],
    by rw [he], by rw [he]⟩

/-- Witness for C6 at a concrete 3-byte frame. -/
theorem C6_length_rejection_witness :
    ([1, 2, 3] : List Nat).length ≠ Codec.PACK_size
    ∧ (Codec.PACK_unpack [1, 2, 3] = none
      ∧ (BlePlotter.notification_handler BlePlotter.ble_init
          { running := true, locationFlag := true, csvActive := true,
            blobAngle := 0, blobArea := 0, now := 7, tSeed := 7,
            tElapsed := 8 } [1, 2, 3]).a0 = BlePlotter.ble_init.a0
      ∧ (BlePlotter.notification_handler BlePlotter.ble_init
          { running := true, locationFlag := true, csvActive := true,
            blobAngle := 0, blobArea := 0, now := 7, tSeed := 7,
            tElapsed := 8 } [1, 2, 3]).a1 = BlePlotter.ble_init.a1
      ∧ (BlePlotter.notification_handler BlePlotter.ble_init
          { running := true, locationFlag := true, csvActive := true,
            blobAngle := 0, blobArea := 0, now := 7, tSeed := 7,
            tElapsed := 8 } [1, 2, 3]).pushTrace
          = BlePlotter.ble_init.pushTrace
      ∧ (BlePlotter.notification_handler BlePlotter.ble_init
          { running := true, locationFlag := true, csvActive := true,
            blobAngle := 0, blobArea := 0, now := 7, tSeed := 7,
            tElapsed := 8 } [1, 2, 3]).log = BlePlotter.ble_init.log
      ∧ (BlePlotter.notification_handler BlePlotter.ble_init
          { running := true, locationFlag := true, csvActive := true,
            blobAngle := 0, blobArea := 0, now := 7, tSeed := 7,
            tElapsed := 8 } [1, 2, 3]).running_time
          = BlePlotter.ble_init.running_time
      ∧ (BlePlotter.notification_handler BlePlotter.ble_init
          { running := true, locationFlag := true, csvActive := true,
            blobAngle := 0, blobArea := 0, now := 7, tSeed := 7,
            tElapsed := 8 } [1, 2, 3]).crashed = BlePlotter.ble_init.crashed
      ∧ (BlePlotter.notification_handler BlePlotter.ble_init
          { running := true, locationFlag := true, csvActive := true,
            blobAngle := 0, blobArea := 0, now := 7, tSeed := 7,
            tElapsed := 8 } [1, 2, 3]).console
          = BlePlotter.ble_init.console
            ++ ["[BLE] Bad packet length: "
                ++ toString ([1, 2, 3] : List Nat).length]) :=
  ⟨by decide,
   C6_length_rejection BlePlotter.ble_init
    { running := true, locationFlag := true, csvActive := true,
      blobAngle := 0, blobArea := 0, now := 7, tSeed := 7, tElapsed := 8 }
    [1, 2, 3] (by decide)⟩

/-- C10: the implicit paired-burst invariant of the BLE handler.  Every
successfully decoded 20-byte frame pushes exactly the first five decoded
u16 values into the a0 queue and exactly the last five into the a1
queue, each burst in wire order with the whole a0 burst preceding the a1
burst (the recorded push trace); a frame that fails to decode pushes
nothing to either queue; hence after any sequence of handler invocations
starting from the initial state the two queues have received equal item
counts — five per valid frame. -/
theorem C10_paired_burst (st : BlePlotter.BleState)
    (ext : BlePlotter.BleExt) (data : List Nat)
    (h : data.length = Codec.PACK_size) :
    (BlePlotter.notification_handler st ext data).a0
        = st.a0 ++ (Codec.u16sOfBytes data).take 5
    ∧ (BlePlotter.notification_handler st ext data).a1
        = st.a1 ++ (Codec.u16sOfBytes data).drop 5
    ∧ (BlePlotter.notification_handler st ext data).pushTrace
        = st.pushTrace
          ++ ((Codec.u16sOfBytes data).take 5).map BlePlotter.PushEv.a0
          ++ ((Codec.u16sOfBytes data).drop 5).map BlePlotter.PushEv.a1
    ∧ (BlePlotter.notification_handler st ext data).a0.length
        = st.a0.length + 5
    ∧ (BlePlotter.notification_handler st ext data).a1.length
        = st.a1.length + 5
    ∧ (∀ (st' : BlePlotter.BleState) (ext' : BlePlotter.BleExt)
          (data' : List Nat), data'.length ≠ Codec.PACK_size →
        (BlePlotter.notification_handler st' ext' data').a0 = st'.a0
        ∧ (BlePlotter.notification_handler st' ext' data').a1 = st'.a1
        ∧ (BlePlotter.notification_handler st' ext' data').pushTrace
            = st'.pushTrace)
    ∧ ∀ (frames : List (BlePlotter.BleExt × List Nat)),
        (BlePlotter.runHandler BlePlotter.ble_init frames).a0.length
          = 5 * (frames.filter
              fun p => decide (p.2.length = Codec.PACK_size)).length
        ∧ (BlePlotter.runHandler BlePlotter.ble_init frames).a1.length
          = 5 * (frames.filter
              fun p => decide (p.2.length = Codec.PACK_size)).length := by
  obtain ⟨rt, lg, cr, he⟩ :=
    BlePlotter.notification_handler_valid st ext data h
  have hu16 : (Codec.u16sOfBytes data).length = 10 := by
    rw [Codec.u16sOfBytes_length, h]
    rfl
  refine ⟨by rw [he], by rw [he], ?_, ?_, ?_, ?_, ?_⟩
  · rw [he]
  · rw [he]
    simp [List.length_take, hu16]
  · rw [he]
    simp [List.length_drop, hu16]
  · intro st' ext' data' h'
    have he' := BlePlotter.notification_handler_invalid st' ext' data' h'
    exact ⟨by rw [he'], by rw [he'], by rw [he']⟩
  · intro frames
    obtain ⟨h0, h1⟩ := BlePlotter.runHandler_lengths frames BlePlotter.ble_init
    constructor
    · rw [h0]
      simp [BlePlotter.ble_init]
    · rw [h1]
      simp [BlePlotter.ble_init]

/-- Witness for C10 at a concrete 20-byte frame (twenty zero bytes). -/
theorem C10_paired_burst_witness :
    (List.replicate 20 0).length = Codec.PACK_size
    ∧ ((BlePlotter.notification_handler BlePlotter.ble_init
          { running := false, locationFlag := false, csvActive := false,
            blobAngle := 0, blobArea := 0, now := 1, tSeed := 1,
            tElapsed := 2 } (List.replicate 20 0)).a0
        = BlePlotter.ble_init.a0
          ++ (Codec.u16sOfBytes (List.replicate 20 0)).take 5
      ∧ (BlePlotter.notification_handler BlePlotter.ble_init
          { running := false, locationFlag := false, csvActive := false,
            blobAngle := 0, blobArea := 0, now := 1, tSeed := 1,
            tElapsed := 2 } (List.replicate 20 0)).a1
        = BlePlotter.ble_init.a1
          ++ (Codec.u16sOfBytes (List.replicate 20 0)).drop 5
      ∧ (BlePlotter.notification_handler BlePlotter.ble_init
          { running := false, locationFlag := false, csvActive := false,
            blobAngle := 0, blobArea := 0, now := 1, tSeed := 1,
            tElapsed := 2 } (List.replicate 20 0)).pushTrace
        = BlePlotter.ble_init.pushTrace
          ++ ((Codec.u16sOfBytes (List.replicate 20 0)).take 5).map
              BlePlotter.PushEv.a0
          ++ ((Codec.u16sOfBytes (List.replicate 20 0)).drop 5).map
              BlePlotter.PushEv.a1
      ∧ (BlePlotter.notification_handler BlePlotter.ble_init
          { running := false, locationFlag := false, csvActive := false,
            blobAngle := 0, blobArea := 0, now := 1, tSeed := 1,
            tElapsed := 2 } (List.replicate 20 0)).a0.length
        = BlePlotter.ble_init.a0.length + 5
      ∧ (BlePlotter.notification_handler BlePlotter.ble_init
          { running := false, locationFlag := false, csvActive := false,
            blobAngle := 0, blobArea := 0, now := 1, tSeed := 1,
            tElapsed := 2 } (List.replicate 20 0)).a1.length
        = BlePlotter.ble_init.a1.length + 5
      ∧ (∀ (st' : BlePlotter.BleState) (ext' : BlePlotter.BleExt)
            (data' : List Nat), data'.length ≠ Codec.PACK_size →
          (BlePlotter.notification_handler st' ext' data').a0 = st'.a0
          ∧ (BlePlotter.notification_handler st' ext' data').a1 = st'.a1
          ∧ (BlePlotter.notification_handler st' ext' data').pushTrace
              = st'.pushTrace)
      ∧ ∀ (frames : List (BlePlotter.BleExt × List Nat)),
          (BlePlotter.runHandler BlePlotter.ble_init frames).a0.length
            = 5 * (frames.filter
                fun p => decide (p.2.length = Codec.PACK_size)).length
          ∧ (BlePlotter.runHandler BlePlotter.ble_init frames).a1.length
            = 5 * (frames.filter
                fun p => decide (p.2.length = Codec.PACK_size)).length) :=
  ⟨by decide,
   C10_paired_burst BlePlotter.ble_init
    { running := false, locationFlag := false, csvActive := false,
      blobAngle := 0, blobArea := 0, now := 1, tSeed := 1, tElapsed := 2 }
    (List.replicate 20 0) (by decide)⟩

namespace Supervisor

theorem runSup_stopped (stop : Nat → Bool) (script : List BLEOutcome)
    (t : Nat) (o : Bool) (h : stop t = true) :
    runSup stop script t o = if o then [(t, Ev.closeCsv)] else [] := by
  unfold runSup
  rw [if_pos h]

theorem runSup_nil (stop : Nat → Bool) (t : Nat) (o : Bool)
    (h : stop t = false) : runSup stop [] t o = [] := by
  conv_lhs => unfold runSup
  rw [if_neg (by simp [h])]

theorem runSup_notFound (stop : Nat → Bool) (rest : List BLEOutcome)
    (t : Nat) (o : Bool) (h : stop t = false) :
    runSup stop (BLEOutcome.notFound :: rest) t o
      = (t, Ev.discover) ::
        (if stop (t + 1) = true then runSup stop rest (t + 2) o
         else (t + 1, Ev.sleepTenths 50) :: runSup stop rest (t + 2) o) := by
  conv_lhs => unfold runSup
  rw [if_neg (by simp [h])]

theorem runSup_bleakErr (stop : Nat → Bool) (rest : List BLEOutcome)
    (t : Nat) (o : Bool) (h : stop t = false) :
    runSup stop (BLEOutcome.bleakErr :: rest) t o
      = (t, Ev.discover) :: (t, Ev.connectAttempt) ::
        (if stop (t + 1) = true then runSup stop rest (t + 2) o
         else (t + 1, Ev.sleepTenths 20) :: runSup stop rest (t + 2) o) := by
  conv_lhs => unfold runSup
  rw [if_neg (by simp [h])]

theorem runSup_unexpected (stop : Nat → Bool) (rest : List BLEOutcome)
    (t : Nat) (o : Bool) (h : stop t = false) :
    runSup stop (BLEOutcome.unexpected :: rest) t o
      = (t, Ev.discover) :: (t, Ev.connectAttempt) ::
        (if o then [(t + 1, Ev.closeCsv)] else []) := by
  conv_lhs => unfold runSup
  rw [if_neg (by simp [h])]

theorem runSup_stream (stop : Nat → Bool) (rest : List BLEOutcome)
    (polls t : Nat) (o : Bool) (h : stop t = false) :
    runSup stop (BLEOutcome.stream polls :: rest) t o
      = (t, Ev.discover) :: (t, Ev.connectAttempt) ::
        ((runStream stop polls (t + 1)).1
          ++ runSup stop rest (runStream stop polls (t + 1)).2 o) := by
  conv_lhs => unfold runSup
  rw [if_neg (by simp [h])]

theorem runStream_zero (stop : Nat → Bool) (t : Nat) :
    runStream stop 0 t = ([], t) := rfl

theorem runStream_succ_stopped (stop : Nat → Bool) (p t : Nat)
    (h : stop t = true) : runStream stop (p + 1) t = ([], t + 1) := by
  conv_lhs => unfold runStream
  rw [if_pos h]

theorem runStream_succ (stop : Nat → Bool) (p t : Nat)
    (h : stop t = false) :
    runStream stop (p + 1) t
      = ((t, Ev.poll) :: (runStream stop p (t + 1)).1,
         (runStream stop p (t + 1)).2) := by
  conv_lhs => unfold runStream
  rw [if_neg (by simp [h])]

theorem runStream_mem (stop : Nat → Bool) :
    ∀ (polls t : Nat), ∀ p ∈ (runStream stop polls t).1,
      p.2 = Ev.poll ∧ stop p.1 = false := by
  intro polls
  induction polls with
  | zero =>
    intro t p hp
    rw [runStream_zero] at hp
    simp at hp
  | succ n ih =>
    intro t p hp
    cases hb : stop t
    · rw [runStream_succ stop n t hb] at hp
      rcases List.mem_cons.mp hp with he | hm
      · subst he
        exact ⟨rfl, hb⟩
      · exact ih (t + 1) p hm
    · rw [runStream_succ_stopped stop n t hb] at hp
      simp at hp

theorem runSup_guarded (stop : Nat → Bool) :
    ∀ (script : List BLEOutcome) (t : Nat) (o : Bool),
      ∀ p ∈ runSup stop script t o, p.2 ≠ Ev.closeCsv → stop p.1 = false := by
  intro script
  induction script with
  | nil =>
    intro t o p hp hne
    cases hb : stop t
    · rw [runSup_nil stop t o hb] at hp
      simp at hp
    · rw [runSup_stopped stop [] t o hb] at hp
      cases o
      · simp at hp
      · simp at hp
        exact absurd (by rw [hp]) hne
  | cons head rest ih =>
    intro t o p hp hne
    cases hb : stop t
    case true =>
      rw [runSup_stopped stop (head :: rest) t o hb] at hp
      cases o
      · simp at hp
      · simp at hp
        exact absurd (by rw [hp]) hne
    case false =>
      cases head
      case notFound =>
        rw [runSup_notFound stop rest t o hb] at hp
        rcases List.mem_cons.mp hp with he | hm
        · rw [he]
          exact hb
        · cases hb2 : stop (t + 1)
          · simp only [hb2, Bool.false_eq_true, if_false] at hm
            rcases List.mem_cons.mp hm with he2 | hm2
            · rw [he2]
              exact hb2
            · exact ih (t + 2) o p hm2 hne
          · simp only [hb2, if_true] at hm
            exact ih (t + 2) o p hm hne
      case bleakErr =>
        rw [runSup_bleakErr stop rest t o hb] at hp
        rcases List.mem_cons.mp hp with he | hm
        · rw [he]
          exact hb
        · rcases List.mem_cons.mp hm with he1 | hm1
          · rw [he1]
            exact hb
          · cases hb2 : stop (t + 1)
            · simp only [hb2, Bool.false_eq_true, if_false] at hm1
              rcases List.mem_cons.mp hm1 with he2 | hm2
              · rw [he2]
                exact hb2
              · exact ih (t + 2) o p hm2 hne
            · simp only [hb2, if_true] at hm1
              exact ih (t + 2) o p hm1 hne
      case unexpected =>
        rw [runSup_unexpected stop rest t o hb] at hp
        rcases List.mem_cons.mp hp with he | hm
        · rw [he]
          exact hb
        · rcases List.mem_cons.mp hm with he1 | hm1
          · rw [he1]
            exact hb
          · cases o
            · simp at hm1
            · simp at hm1
              exact absurd (by rw [hm1]) hne
      case stream polls =>
        rw [runSup_stream stop rest polls t o hb] at hp
        rcases List.mem_cons.mp hp with he | hm
        · rw [he]
          exact hb
        · rcases List.mem_cons.mp hm with he1 | hm1
          · rw [he1]
            exact hb
          · rcases List.mem_append.mp hm1 with hs | hr
            · exact (runStream_mem stop polls (t + 1) p hs).2
            · exact ih (runStream stop polls (t + 1)).2 o p hr hne

theorem runSup_close_count (stop : Nat → Bool) :
    ∀ (script : List BLEOutcome) (t : Nat) (o : Bool),
      (runSup stop script t o).countP
        (fun p => decide (p.2 = Ev.closeCsv)) ≤ 1 := by
  intro script
  induction script with
  | nil =>
    intro t o
    cases hb : stop t
    · rw [runSup_nil stop t o hb]
      simp
    · rw [runSup_stopped stop [] t o hb]
      cases o <;> simp
  | cons head rest ih =>
    intro t o
    cases hb : stop t
    case true =>
      rw [runSup_stopped stop (head :: rest) t o hb]
      cases o <;> simp
    case false =>
      cases head
      case notFound =>
        rw [runSup_notFound stop rest t o hb]
        cases hb2 : stop (t + 1)
        · simp only [Bool.false_eq_true, if_false, List.countP_cons]
          simpa using ih (t + 2) o
        · simp only [if_true, List.countP_cons]
          simpa using ih (t + 2) o
      case bleakErr =>
        rw [runSup_bleakErr stop rest t o hb]
        cases hb2 : stop (t + 1)
        · simp only [Bool.false_eq_true, if_false, List.countP_cons]
          simpa using ih (t + 2) o
        · simp only [if_true, List.countP_cons]
          simpa using ih (t + 2) o
      case unexpected =>
        rw [runSup_unexpected stop rest t o]
        · cases o <;> simp
        · exact hb
      case stream polls =>
        rw [runSup_stream stop rest polls t o hb]
        simp only [List.countP_cons, List.countP_append]
        have h0 : (runStream stop polls (t + 1)).1.countP
            (fun p => decide (p.2 = Ev.closeCsv)) = 0 := by
          rw [List.countP_eq_zero]
          intro a ha
          have := (runStream_mem stop polls (t + 1) a ha).1
          simp [this]
        rw [h0]
        simpa using ih (runStream stop polls (t + 1)).2 o

end Supervisor

/-- C2: error-kind asymmetry of the connection supervisor.  With the
stop event clear throughout: a discovery failure (device not found)
yields the discovery attempt, a fixed 5 s backoff sleep, and the loop
continues with the next iteration (a new discovery attempt, at the head
of the continuation); a `BleakError` (transient link-layer failure)
yields the connection attempt, a fixed 2 s backoff sleep, and the loop
retries starting from discovery; any other exception terminates the
retry loop entirely — the trace ends at the CSV close, is independent of
whatever outcomes would have followed, and contains exactly one
discovery attempt (nothing is ever retried).  The final conjunct covers
the proviso: a discovery failure with the stop signal set at the
post-discovery check skips the backoff sleep. -/
theorem C2_error_kind_asymmetry (rest : List Supervisor.BLEOutcome) (t : Nat)
    (o : Bool) :
    Supervisor.runSup Supervisor.neverStop
        (Supervisor.BLEOutcome.notFound :: rest) t o
      = (t, Supervisor.Ev.discover)
        :: (t + 1, Supervisor.Ev.sleepTenths 50)
        :: Supervisor.runSup Supervisor.neverStop rest (t + 2) o
    ∧ Supervisor.runSup Supervisor.neverStop
        (Supervisor.BLEOutcome.bleakErr :: rest) t o
      = (t, Supervisor.Ev.discover) :: (t, Supervisor.Ev.connectAttempt)
        :: (t + 1, Supervisor.Ev.sleepTenths 20)
        :: Supervisor.runSup Supervisor.neverStop rest (t + 2) o
    ∧ Supervisor.runSup Supervisor.neverStop
        (Supervisor.BLEOutcome.unexpected :: rest) t o
      = (t, Supervisor.Ev.discover) :: (t, Supervisor.Ev.connectAttempt)
        :: (if o then [(t + 1, Supervisor.Ev.closeCsv)] else [])
    ∧ Supervisor.runSup Supervisor.neverStop
        (Supervisor.BLEOutcome.unexpected :: rest) t o
      = Supervisor.runSup Supervisor.neverStop
          [Supervisor.BLEOutcome.unexpected] t o
    ∧ (Supervisor.runSup Supervisor.neverStop
        (Supervisor.BLEOutcome.unexpected :: rest) t o).countP
          (fun p => decide (p.2 = Supervisor.Ev.discover)) = 1
    ∧ ∀ (stop : Nat → Bool), stop t = false → stop (t + 1) = true →
        Supervisor.runSup stop (Supervisor.BLEOutcome.notFound :: rest) t o
          = (t, Supervisor.Ev.discover)
            :: Supervisor.runSup stop rest (t + 2) o := by
  have hns : ∀ n, Supervisor.neverStop n = false := fun _ => rfl
  refine ⟨?_, ?_, ?_, ?_, ?_, ?_⟩
  · rw [Supervisor.runSup_notFound _ rest t o (hns t)]
    simp [Supervisor.neverStop]
  · rw [Supervisor.runSup_bleakErr _ rest t o (hns t)]
    simp [Supervisor.neverStop]
  · rw [Supervisor.runSup_unexpected _ rest t o (hns t)]
  · rw [Supervisor.runSup_unexpected _ rest t o (hns t),
      Supervisor.runSup_unexpected _ [] t o (hns t)]
  · rw [Supervisor.runSup_unexpected _ rest t o (hns t)]
    cases o <;> simp [List.countP_cons]
  · intro stop h0 h1
    rw [Supervisor.runSup_notFound stop rest t o h0]
    simp [h1]

/-- Witness for C2 at a concrete stop schedule that is clear at the
first check and set at the post-discovery check. -/
theorem C2_error_kind_asymmetry_witness :
    (fun n => decide (n = 1) : Nat → Bool) 0 = false
    ∧ (fun n => decide (n = 1) : Nat → Bool) 1 = true
    ∧ Supervisor.runSup (fun n => decide (n = 1))
        (Supervisor.BLEOutcome.notFound :: []) 0 true
      = (0, Supervisor.Ev.discover)
        :: Supervisor.runSup (fun n => decide (n = 1)) [] 2 true :=
  ⟨rfl, rfl,
   (C2_error_kind_asymmetry [] 0 true).2.2.2.2.2
     (fun n => decide (n = 1)) rfl rfl⟩

/-- C8: cancellation.  When a read of the stop event returns true at a
loop check, the supervisor emits nothing further and closes the open log
file immediately — the whole remaining trace is the single close event,
so the exit happens within the one wait that could already be in flight.
Moreover, in every run: every discovery, connection attempt, backoff
sleep, and streaming poll in the trace occurs at a read where the stop
event was still false (once the signal is set no such action ever
begins), and the log file is closed at most once — together with the
first conjunct, exactly once on the cancellation path. -/
theorem C8_cancellation (stop : Nat → Bool)
    (script : List Supervisor.BLEOutcome) (t : Nat) (h : stop t = true) :
    Supervisor.runSup stop script t true = [(t, Supervisor.Ev.closeCsv)]
    ∧ (∀ (script' : List Supervisor.BLEOutcome) (t' : Nat) (o : Bool),
        ∀ p ∈ Supervisor.runSup stop script' t' o,
          p.2 ≠ Supervisor.Ev.closeCsv → stop p.1 = false)
    ∧ (∀ (script' : List Supervisor.BLEOutcome) (t' : Nat) (o : Bool),
        (Supervisor.runSup stop script' t' o).countP
          (fun p => decide (p.2 = Supervisor.Ev.closeCsv)) ≤ 1) := by
  refine ⟨?_, Supervisor.runSup_guarded stop, ?_⟩
  · rw [Supervisor.runSup_stopped stop script t true h]
    simp
  · intro s t' o
    exact Supervisor.runSup_close_count stop s t' o

/-- Witness for C8 at the concrete always-set stop schedule. -/
theorem C8_cancellation_witness :
    (fun _ => true : Nat → Bool) 0 = true
    ∧ (Supervisor.runSup (fun _ => true)
          [Supervisor.BLEOutcome.notFound] 0 true
        = [(0, Supervisor.Ev.closeCsv)]
      ∧ (∀ (script' : List Supervisor.BLEOutcome) (t' : Nat) (o : Bool),
          ∀ p ∈ Supervisor.runSup (fun _ => true) script' t' o,
            p.2 ≠ Supervisor.Ev.closeCsv → (fun _ => true : Nat → Bool) p.1 = false)
      ∧ (∀ (script' : List Supervisor.BLEOutcome) (t' : Nat) (o : Bool),
          (Supervisor.runSup (fun _ => true) script' t' o).countP
            (fun p => decide (p.2 = Supervisor.Ev.closeCsv)) ≤ 1)) :=
  ⟨rfl, C8_cancellation (fun _ => true) [Supervisor.BLEOutcome.notFound] 0 rfl⟩
